import Mathlib

/-!
Verification of the EL Zone visualization engine (`stillgen/el_zone.py`).

The development is a shallow embedding of the numeric core of
`ELZoneProcessor`: the zone-table construction of
`map_luminance_to_zones`, the log-decoding functions and their dispatch
(`_get_decode_function`), the vectorscope sample-plot coordinates of
`create_vectorscope`, the waveform rasterization of `create_waveform` /
`_draw_waveform_grid`, and the top-quadrant height computation of
`create_4_quadrant_layout` / `_resize_to_fill_width`.

Python float arithmetic is modelled by exact arithmetic: `ℝ` where the
source computes transcendental powers (zone boundaries, log decoding),
`ℚ` where the source computes only field operations on samples
(vectorscope and waveform paths).  Machine integers are `ℕ`/`ℤ`, with
Python's `int()` truncation toward zero and `np.clip` made explicit.
-/

namespace StillGen
namespace ELZone

/-! ### Shared numeric helpers for the Python/NumPy operations -/

/-- Python `int(q)` on a rational: truncation toward zero. -/
def pyInt (q : ℚ) : ℤ := if 0 ≤ q then ⌊q⌋ else -⌊-q⌋

/-- `np.clip(q, lo, hi)` on rationals: `min (max q lo) hi`. -/
def npClip (q lo hi : ℚ) : ℚ := min (max q lo) hi

/-! ### EL Zone System constants (el_zone.py lines 24-49) -/

/-- `STOPS_LIST` from el_zone.py line 25. -/
def STOPS_LIST : List ℚ := [-7, -6, -5, -4, -3, -2, -1, -1/2, 0, 1/2, 1, 2, 3, 4, 5, 6, 7]

/-- `COLOR_LIST_8BIT` from el_zone.py lines 27-45 (RGB triples). -/
def COLOR_LIST_8BIT : List (ℕ × ℕ × ℕ) :=
  [(3, 3, 3), (98, 71, 155), (158, 126, 184), (24, 116, 167), (39, 174, 228),
   (27, 168, 75), (93, 187, 71), (148, 200, 64), (144, 140, 135), (251, 232, 0),
   (255, 248, 166), (244, 112, 42), (247, 170, 71), (239, 28, 38), (229, 126, 140),
   (243, 190, 192), (255, 255, 255)]

/-- `GRAY18 = 0.18`, 18% gray in linear light (el_zone.py line 48). -/
def GRAY18 : ℝ := 0.18

/-- `EXP_RANGE = 7` (el_zone.py line 49). -/
def EXP_RANGE : ℚ := 7

/-! ### Zone boundary computation (`map_luminance_to_zones`, lines 149-179)

The loop computes, for each index `idx` into `STOPS_LIST`, a low and a
high boundary in stops.  The low boundary is `-20` for the first zone
(`stops == -EXP_RANGE`) and the midpoint toward the previous stop
otherwise; the high boundary is `20` for the last zone
(`stops == EXP_RANGE`) and the midpoint toward the next stop otherwise. -/

/-- `low_stops` of zone `idx` exactly as computed in the loop body. -/
def lowStops (idx : ℕ) : ℚ :=
  let stops := STOPS_LIST.getD idx 0
  if stops = -EXP_RANGE then -20
  else stops - (stops - STOPS_LIST.getD (idx - 1) 0) / 2

/-- `high_stops` of zone `idx` exactly as computed in the loop body. -/
def highStops (idx : ℕ) : ℚ :=
  let stops := STOPS_LIST.getD idx 0
  if stops = EXP_RANGE then 20
  else stops + (STOPS_LIST.getD (idx + 1) 0 - stops) / 2

/-- `low_value = GRAY18 * (2 ** low_stops)` (line 170). -/
noncomputable def lowValue (idx : ℕ) : ℝ := GRAY18 * (2 : ℝ) ^ ((lowStops idx : ℚ) : ℝ)

/-- `high_value = GRAY18 * (2 ** high_stops)` (line 171). -/
noncomputable def highValue (idx : ℕ) : ℝ := GRAY18 * (2 : ℝ) ^ ((highStops idx : ℚ) : ℝ)

/-- `zone_mask = (low_value <= linear_y) & (linear_y < high_value)` (line 174),
for one luminance value. -/
def inZone (y : ℝ) (idx : ℕ) : Prop := lowValue idx ≤ y ∧ y < highValue idx

/-! ### Boundary monotonicity infrastructure

`boundStops i` is the `i`-th of the 18 boundary exponents of the zone
table: the low boundary of zone `i` for `i < 17`, and the high boundary
of the last zone for `i = 17`. -/

/-- The ordered sequence of the 18 zone-boundary exponents. -/
def boundStops (i : ℕ) : ℚ := if i < 17 then lowStops i else 20

/-- The boundary value at index `i`, in linear luminance. -/
noncomputable def bval (i : ℕ) : ℝ := GRAY18 * (2 : ℝ) ^ ((boundStops i : ℚ) : ℝ)

lemma highStops_eq_boundStops : ∀ i : Fin 17, highStops i.val = boundStops (i.val + 1) := by
  intro i
  fin_cases i <;>
    norm_num [highStops, lowStops, boundStops, STOPS_LIST, EXP_RANGE, List.getD]

lemma boundStops_adj : ∀ i : Fin 17, boundStops i.val < boundStops (i.val + 1) := by
  intro i
  fin_cases i <;>
    norm_num [lowStops, boundStops, STOPS_LIST, EXP_RANGE, List.getD]

lemma boundStops_mono : ∀ j i : ℕ, i < j → j ≤ 17 → boundStops i < boundStops j := by
  intro j
  induction j with
  | zero => intro i h _; omega
  | succ k ih =>
    intro i hij hk
    rcases Nat.lt_succ_iff_lt_or_eq.mp hij with h | h
    · exact lt_trans (ih i h (by omega)) (boundStops_adj ⟨k, by omega⟩)
    · subst h; exact boundStops_adj ⟨i, by omega⟩

lemma gray18_pos : (0 : ℝ) < GRAY18 := by norm_num [GRAY18]

lemma bval_lt {i j : ℕ} (hij : i < j) (hj : j ≤ 17) : bval i < bval j := by
  unfold bval
  refine mul_lt_mul_of_pos_left ?_ gray18_pos
  refine (Real.rpow_lt_rpow_left_iff one_lt_two).mpr ?_
  exact_mod_cast boundStops_mono j i hij hj

lemma bval_le {i j : ℕ} (hij : i ≤ j) (hj : j ≤ 17) : bval i ≤ bval j := by
  rcases eq_or_lt_of_le hij with h | h
  · subst h; exact le_refl _
  · exact le_of_lt (bval_lt h hj)

lemma lowValue_eq_bval {i : ℕ} (h : i < 17) : lowValue i = bval i := by
  unfold lowValue bval boundStops
  rw [if_pos h]

lemma highValue_eq_bval {i : ℕ} (h : i < 17) : highValue i = bval (i + 1) := by
  unfold highValue bval
  rw [highStops_eq_boundStops ⟨i, h⟩]

lemma inZone_iff {y : ℝ} {i : ℕ} (h : i < 17) :
    inZone y i ↔ bval i ≤ y ∧ y < bval (i + 1) := by
  unfold inZone
  rw [lowValue_eq_bval h, highValue_eq_bval h]

lemma lowValue_pos (i : ℕ) : 0 < lowValue i :=
  mul_pos gray18_pos (Real.rpow_pos_of_pos two_pos _)

/-- No luminance value lies in two distinct zones. -/
lemma zone_unique {y : ℝ} {i j : ℕ} (hi : i < 17) (hj : j < 17)
    (h1 : inZone y i) (h2 : inZone y j) : i = j := by
  rcases lt_trichotomy i j with h | h | h
  · exfalso
    have hy1 := ((inZone_iff hi).mp h1).2
    have hy2 := ((inZone_iff hj).mp h2).1
    have : bval (i + 1) ≤ bval j := bval_le (by omega) (by omega)
    linarith
  · exact h
  · exfalso
    have hy1 := ((inZone_iff hj).mp h2).2
    have hy2 := ((inZone_iff hi).mp h1).1
    have : bval (j + 1) ≤ bval i := bval_le (by omega) (by omega)
    linarith

/-- In a sequence of bands, a value between the first and the `n`-th
boundary lies in some band. -/
lemma exists_band (g : ℕ → ℝ) (y : ℝ) :
    ∀ n : ℕ, g 0 ≤ y → y < g n → ∃ i, i < n ∧ g i ≤ y ∧ y < g (i + 1) := by
  intro n h0 hn
  induction n with
  | zero => exact absurd hn (not_lt.mpr h0)
  | succ k ih =>
    by_cases hy : y < g k
    · obtain ⟨i, hi, h⟩ := ih hy
      exact ⟨i, by omega, h⟩
    · exact ⟨k, by omega, not_lt.mp hy, hn⟩

/-! ### Display colors and the per-pixel zone classifier

`map_luminance_to_zones` (lines 149-179) starts from a zero-initialized
output buffer and, iterating over the 17 zones in order, overwrites the
pixels whose luminance falls in the zone's `[low, high)` interval with
the zone's precomputed display color.  Per pixel this is a left fold. -/

/-- `_srgb_eotf` (lines 93-95), pointwise. -/
noncomputable def srgb_eotf (x : ℝ) : ℝ :=
  if x ≤ 0.04045 then x / 12.92 else ((x + 0.055) / 1.055) ^ (2.4 : ℝ)

/-- One channel of `color_list_display` (lines 66-68):
`(srgb_eotf (c / 255)) ** (1/2.4)`. -/
noncomputable def displayChannel (v : ℕ) : ℝ := (srgb_eotf ((v : ℝ) / 255)) ^ ((1 : ℝ) / 2.4)

/-- `self.color_list_display[idx]` (line 68). -/
noncomputable def color_list_display (idx : ℕ) : ℝ × ℝ × ℝ :=
  let c := COLOR_LIST_8BIT.getD idx (0, 0, 0)
  (displayChannel c.1, displayChannel c.2.1, displayChannel c.2.2)

open Classical in
/-- One iteration of the zone loop at one pixel: overwrite the
accumulated color when the pixel's luminance is in zone `idx`
(lines 174-177). -/
noncomputable def zoneStep (y : ℝ) (acc : ℝ × ℝ × ℝ) (idx : ℕ) : ℝ × ℝ × ℝ :=
  if inZone y idx then color_list_display idx else acc

/-- `map_luminance_to_zones` at a single pixel with luminance `y`:
the zero-initialized output cell after the 17 zone iterations. -/
noncomputable def map_luminance_to_zones_pixel (y : ℝ) : ℝ × ℝ × ℝ :=
  (List.range 17).foldl (zoneStep y) (0, 0, 0)

lemma zoneStep_of_not {y : ℝ} {idx : ℕ} (acc : ℝ × ℝ × ℝ) (h : ¬ inZone y idx) :
    zoneStep y acc idx = acc := by
  unfold zoneStep
  exact if_neg h

lemma foldl_zoneStep_no_match {y : ℝ} (l : List ℕ) (init : ℝ × ℝ × ℝ)
    (h : ∀ i ∈ l, ¬ inZone y i) : l.foldl (zoneStep y) init = init := by
  induction l generalizing init with
  | nil => rfl
  | cons a t ih =>
    rw [List.foldl_cons, zoneStep_of_not init (h a (List.mem_cons_self a t))]
    exact ih init (fun i hi => h i (List.mem_cons_of_mem a hi))

lemma not_inZone_zero (i : ℕ) : ¬ inZone 0 i :=
  fun h => absurd h.1 (not_le.mpr (lowValue_pos i))

/-- `rgb_to_y_bt2020` (lines 141-147) at one RGB pixel. -/
noncomputable def rgb_to_y_bt2020 (r g b : ℝ) : ℝ :=
  r * 0.2627 + g * 0.6780 + b * 0.0593

/-! ### Log decoding functions (lines 70-139)

The external `colour` library functions (`colour.models.*`) are not part
of this repository; the dispatch below keeps them abstract and the
in-repo fallbacks are embedded exactly. -/

/-- `_log_decoding_logc4_accurate` (lines 120-135), with the constants
`a = 0.0647954196341293`, `b = 0.0799017958419154`,
`c = 0.0851858618842153`, `d = 0.0562935137369496` inlined and the final
`np.clip(linear, 0, None)` as a `max` with `0`. -/
noncomputable def log_decoding_logc4_accurate (x : ℝ) : ℝ :=
  max (if x > 0.0851858618842153 then
        (10 : ℝ) ^ ((x - 0.0562935137369496) / 0.0647954196341293)
          - 0.0799017958419154 / 0.0647954196341293
      else (x - 0.0851858618842153) / 0.0799017958419154) 0

/-- `_log_decoding_apple_log_fallback` (lines 97-100). -/
noncomputable def log_decoding_apple_log_fallback (x : ℝ) : ℝ :=
  (10 : ℝ) ^ ((x - 0.3584) / 0.2471)

/-- `_log_decoding_redlog3_fallback` (lines 102-118). -/
noncomputable def log_decoding_redlog3_fallback (x : ℝ) : ℝ :=
  max (if x ≥ 0.01 then (10 : ℝ) ^ ((x * 1023 - 685) / 300) / 1023
       else x * 0.224282) 0

/-- `_log_decoding_fallback` (lines 137-139): `2 ** ((x - 0.5) * 14)`. -/
noncomputable def log_decoding_fallback (x : ℝ) : ℝ :=
  (2 : ℝ) ^ ((x - 0.5) * 14)

/-- The decode function chosen by `_get_decode_function` (lines 70-91),
as a closed enumeration.  `linearNone` is Python's `None` (identity in
`create_el_zone_map`); `colourLogC4` and `colourSLog3` are the external
`colour` library decoders. -/
inductive DecodeChoice
  | linearNone
  | colourLogC4
  | logc4Accurate
  | colourSLog3
  | appleLogFallback
  | redlog3Fallback
  | genericFallback
deriving DecidableEq

/-- `_get_decode_function` (lines 70-91).  `hasColour` models the
`HAS_COLOUR` import flag; on the `logc4`/`HAS_COLOUR` path the `try`
succeeds and the `colour` library decoder is returned. -/
def get_decode_function (hasColour : Bool) (log_format : String) : DecodeChoice :=
  if log_format = "linear" then .linearNone
  else if log_format = "logc4" then
    (if hasColour then .colourLogC4 else .logc4Accurate)
  else if log_format = "slog3" ∧ hasColour = true then .colourSLog3
  else if log_format = "apple_log" then .appleLogFallback
  else if log_format = "redlog3" then .redlog3Fallback
  else .genericFallback

/-- The value of one sample of `linear_image` in `create_el_zone_map`
(lines 204-208): `decode_func(img_array)` pointwise when a decode
function was selected, `img_array.copy()` (identity) when it is `None`.
`colourC4`/`colourS3` stand for the external `colour` library
decoders. -/
noncomputable def linear_image_sample (colourC4 colourS3 : ℝ → ℝ) :
    DecodeChoice → ℝ → ℝ
  | .linearNone, x => x
  | .colourLogC4, x => colourC4 x
  | .logc4Accurate, x => log_decoding_logc4_accurate x
  | .colourSLog3, x => colourS3 x
  | .appleLogFallback, x => log_decoding_apple_log_fallback x
  | .redlog3Fallback, x => log_decoding_redlog3_fallback x
  | .genericFallback, x => log_decoding_fallback x

/-! ### Vectorscope sample plotting (`create_vectorscope`, lines 265-339)

The frame samples reach this code as normalized floats; only field
operations occur, so samples are modelled as rationals. -/

/-- `y = 0.299*r + 0.587*g + 0.114*b` (line 303). -/
def yuv_y (r g b : ℚ) : ℚ := 0.299 * r + 0.587 * g + 0.114 * b

/-- `u = -0.14713*r - 0.28886*g + 0.436*b` (line 304). -/
def yuv_u (r g b : ℚ) : ℚ := -0.14713 * r - 0.28886 * g + 0.436 * b

/-- `v = 0.615*r - 0.51499*g - 0.10001*b` (line 305). -/
def yuv_v (r g b : ℚ) : ℚ := 0.615 * r - 0.51499 * g - 0.10001 * b

/-- `center_x = size[0] // 2` (line 308). -/
def vscopeCenterX (W : ℕ) : ℕ := W / 2

/-- `center_y = size[1] // 2` (line 308). -/
def vscopeCenterY (H : ℕ) : ℕ := H / 2

/-- `scale = min(size) // 3` (line 309). -/
def vscopeScale (W H : ℕ) : ℕ := min W H / 3

/-- `x_coord = int(np.clip(center_x + pixel_v * scale, 0, size[0]-1))`
(line 329). -/
def vscopeXCoord (W H : ℕ) (v : ℚ) : ℤ :=
  pyInt (npClip ((vscopeCenterX W : ℚ) + v * (vscopeScale W H : ℚ)) 0 ((W : ℚ) - 1))

/-- `y_coord = int(np.clip(center_y - pixel_u * scale, 0, size[1]-1))`
(line 330). -/
def vscopeYCoord (W H : ℕ) (u : ℚ) : ℤ :=
  pyInt (npClip ((vscopeCenterY H : ℚ) - u * (vscopeScale W H : ℚ)) 0 ((H : ℚ) - 1))

/-! ### Compositor height computation (lines 528-604) -/

/-- The height of `_resize_to_fill_width` output (lines 578-604):
`scale = target_w / w; new_h = int(h * scale)`. -/
def resize_to_fill_width_height (h w target_w : ℕ) : ℕ := h * target_w / w

/-- `quad_width = output_size[0] // 2` (line 529). -/
def quad_width (outW : ℕ) : ℕ := outW / 2

/-- `top_image_height = orig_resized.shape[0]` in
`create_4_quadrant_layout` (lines 549-553) for a frame of shape
`(fh, fw)`. -/
def top_image_height (fh fw outW : ℕ) : ℕ :=
  resize_to_fill_width_height fh fw (quad_width outW)

/-- `bottom_height = output_size[1] - top_image_height` (line 554), a
Python integer that may be negative. -/
def bottom_height (fh fw outW outH : ℕ) : ℤ :=
  (outH : ℤ) - top_image_height fh fw outW

/-! ### Waveform rasterization (`create_waveform`, lines 401-471, and
`_draw_waveform_grid`, lines 473-508)

The canvas is `np.zeros((size[1], size[0], 3), dtype=np.uint8)`; a pixel
is a triple of 8-bit channel values and the canvas a function from
(row, column) to pixels.  The trace loop is embedded as the ordered list
of its write targets followed by a fold applying the additive green
tint, and the grid pass as the exact sequence of row/column writes,
including NumPy's slice-index resolution. -/

/-- An 8-bit RGB pixel of a scope canvas. -/
abbrev Color := ℕ × ℕ × ℕ

/-- A scope canvas addressed as (row, column). -/
abbrev Canvas := ℕ → ℕ → Color

/-- A frame of rational RGB samples addressed as (row, column). -/
abbrev QFrame := ℕ → ℕ → ℚ × ℚ × ℚ

/-- A rendered scope image: `np.zeros((size[1], size[0], 3))` carries
the height and width of the allocation. -/
structure ScopeImage where
  width : ℕ
  height : ℕ
  pixel : Canvas

/-- `log_luminance = 0.2126*r + 0.7152*g + 0.0722*b` (line 437). -/
def logLuma (p : ℚ × ℚ × ℚ) : ℚ := 0.2126 * p.1 + 0.7152 * p.2.1 + 0.0722 * p.2.2

/-- `sample_step = max(1, len(luma_column) // 200)` (line 450). -/
def sampleStep (h : ℕ) : ℕ := max 1 (h / 200)

/-- The row indices selected by `luma_column[::sample_step]` (line 451). -/
def sampleRows (h : ℕ) : List ℕ :=
  (List.range h).filter (fun r => r % sampleStep h = 0)

/-- Entry `k` of `x_positions = np.linspace(0, w - 1, size[0], dtype=int)`
(line 440), in exact arithmetic. -/
def xPosition (w n k : ℕ) : ℕ := if n ≤ 1 then 0 else k * (w - 1) / (n - 1)

/-- `enumerate(x_positions)` (line 442): the list of
`(waveform_x, img_x)` pairs. -/
def enumXPositions (w n : ℕ) : List (ℕ × ℕ) :=
  (List.range n).map (fun k => (k, xPosition w n k))

/-- One entry of the clipped `y_positions` (lines 454-455):
`int((1 - clip(luma,0,1)) * (size[1]-40) + 20)` clipped to
`[0, size[1]-1]`. -/
def traceY (H : ℕ) (luma : ℚ) : ℤ :=
  min (max (pyInt ((1 - npClip luma 0 1) * ((H : ℚ) - 40) + 20)) 0) ((H : ℤ) - 1)

/-- The ordered list of (row, column) targets written by the trace loop
(lines 442-466) for a frame of shape `(h, w)`. -/
def traceTargets (f : QFrame) (h w : ℕ) (size : ℕ × ℕ) : List (ℤ × ℕ) :=
  (enumXPositions w size.1).flatMap (fun p =>
    (sampleRows h).map (fun r => (traceY size.2 (logLuma (f r p.2)), p.1)))

/-- The additive green tint of one trace write (lines 458-466). -/
def addGreen (c : Color) : Color :=
  (min 255 (c.1 + 16), min 255 (c.2.1 + 80), min 255 (c.2.2 + 16))

/-- The canvas after the trace loop: the zero canvas with the green
tint accumulated at each target in order. -/
def traceCanvas (f : QFrame) (h w : ℕ) (size : ℕ × ℕ) : Canvas :=
  (traceTargets f h w size).foldl
    (fun acc t => fun r c =>
      if r = t.1.toNat ∧ c = t.2 then addGreen (acc t.1.toNat t.2) else acc r c)
    (fun _ _ => (0, 0, 0))

/-- `y = int((size[1] - 40) * (1 - percent / 100)) + 20` (line 479). -/
def ireRow (H p : ℕ) : ℤ := pyInt (((H : ℚ) - 40) * (1 - (p : ℚ) / 100)) + 20

/-- `y_75 = int((size[1] - 40) * 0.25) + 20` (line 495). -/
def y75Row (H : ℕ) : ℤ := pyInt (((H : ℚ) - 40) * 0.25) + 20

/-- `y_50 = int((size[1] - 40) * 0.5) + 20` (line 499). -/
def y50Row (H : ℕ) : ℤ := pyInt (((H : ℚ) - 40) * 0.5) + 20

/-- `y_18 = int((size[1] - 40) * 0.82) + 20` (line 503). -/
def y18Row (H : ℕ) : ℤ := pyInt (((H : ℚ) - 40) * 0.82) + 20

/-- `waveform[y, :] = color` under the guard `0 <= y < size[1]`
(lines 480-481), stated pointwise: the pixel `(r, c)` is overwritten
exactly when the guard holds and `r = y`. -/
def setRowGuarded (img : Canvas) (H : ℕ) (y : ℤ) (col : Color) : Canvas :=
  fun r c => if 0 ≤ y ∧ y < (H : ℤ) ∧ (r : ℤ) = y then col else img r c

/-- `waveform[:, x] = color` under the guard `x < size[0]`
(lines 486-487), stated pointwise. -/
def setColGuarded (img : Canvas) (W x : ℕ) (col : Color) : Canvas :=
  fun r c => if x < W ∧ c = x then col else img r c

/-- NumPy slice-index resolution for an axis of length `H`: negative
indices wrap by `+H`, then the index is clamped into `[0, H]`. -/
def sliceIdx (H : ℕ) (i : ℤ) : ℤ :=
  if i < 0 then max (i + (H : ℤ)) 0 else min i (H : ℤ)

/-- `waveform[y0:y1, :] = color`, with NumPy slice semantics. -/
def setRowSlice (img : Canvas) (H : ℕ) (y0 y1 : ℤ) (col : Color) : Canvas :=
  fun r c =>
    if sliceIdx H y0 ≤ (r : ℤ) ∧ (r : ℤ) < sliceIdx H y1 then col else img r c

/-- `_draw_waveform_grid` (lines 473-508): the exact write sequence of
the grid pass, applied to the canvas produced by the trace loop. -/
def draw_waveform_grid (img : Canvas) (W H : ℕ) : Canvas :=
  let g0 := setRowGuarded img H (ireRow H 0) (48, 48, 48)
  let g1 := setRowGuarded g0 H (ireRow H 25) (48, 48, 48)
  let g2 := setRowGuarded g1 H (ireRow H 50) (48, 48, 48)
  let g3 := setRowGuarded g2 H (ireRow H 75) (48, 48, 48)
  let g4 := setRowGuarded g3 H (ireRow H 100) (48, 48, 48)
  let t1 := setColGuarded g4 W (W * 1 / 8) (32, 32, 32)
  let t2 := setColGuarded t1 W (W * 2 / 8) (32, 32, 32)
  let t3 := setColGuarded t2 W (W * 3 / 8) (32, 32, 32)
  let t4 := setColGuarded t3 W (W * 4 / 8) (32, 32, 32)
  let t5 := setColGuarded t4 W (W * 5 / 8) (32, 32, 32)
  let t6 := setColGuarded t5 W (W * 6 / 8) (32, 32, 32)
  let t7 := setColGuarded t6 W (W * 7 / 8) (32, 32, 32)
  let m1 := setRowSlice t7 H 20 22 (160, 160, 160)
  let m2 := setRowSlice m1 H (y75Row H) (y75Row H + 1) (96, 96, 96)
  let m3 := setRowSlice m2 H (y50Row H) (y50Row H + 1) (96, 96, 96)
  let m4 := setRowSlice m3 H (y18Row H) (y18Row H + 1) (80, 80, 80)
  setRowSlice m4 H ((H : ℤ) - 22) ((H : ℤ) - 20) (160, 160, 160)

/-- `create_waveform` (lines 401-471) for a frame of shape `(h, w)`:
a canvas of the requested size, traced then overlaid with the grid. -/
def create_waveform (f : QFrame) (h w : ℕ) (size : ℕ × ℕ) : ScopeImage :=
  ⟨size.1, size.2, draw_waveform_grid (traceCanvas f h w size) size.1 size.2⟩

/-- A horizontal reference line at row `y` is present in the output:
the row exists on the canvas and some pixel of it is not background. -/
def gridRowPresent (img : Canvas) (W H : ℕ) (y : ℤ) : Prop :=
  0 ≤ y ∧ y < (H : ℤ) ∧ ∃ x, x < W ∧ img y.toNat x ≠ ((0, 0, 0) : Color)

/-- A vertical tick at column `x` is present in the output. -/
def tickColPresent (img : Canvas) (W H : ℕ) (x : ℕ) : Prop :=
  x < W ∧ ∃ y, y < H ∧ img y x ≠ ((0, 0, 0) : Color)

/-- Every horizontal grid/reference line and every vertical tick drawn
by `_draw_waveform_grid` is present in the output: the five IRE rows,
the seven timing ticks, the 100% and 0% two-row marker bands, and the
75%/50%/18% reference rows. -/
def allWaveformLinesPresent (img : Canvas) (W H : ℕ) : Prop :=
  (∀ p ∈ ([0, 25, 50, 75, 100] : List ℕ), gridRowPresent img W H (ireRow H p)) ∧
  (∀ i ∈ ([1, 2, 3, 4, 5, 6, 7] : List ℕ), tickColPresent img W H (W * i / 8)) ∧
  gridRowPresent img W H 20 ∧ gridRowPresent img W H 21 ∧
  gridRowPresent img W H (y75Row H) ∧ gridRowPresent img W H (y50Row H) ∧
  gridRowPresent img W H (y18Row H) ∧
  gridRowPresent img W H ((H : ℤ) - 22) ∧ gridRowPresent img W H ((H : ℤ) - 21)

/-! ### Evaluation helpers -/

lemma pyInt_of_nonneg {q : ℚ} (h : 0 ≤ q) : pyInt q = ⌊q⌋ := by
  unfold pyInt
  exact if_pos h

lemma pyInt_intCast (n : ℤ) : pyInt ((n : ℤ) : ℚ) = n := by
  rcases le_or_lt 0 n with h | h
  · rw [pyInt_of_nonneg (by exact_mod_cast h), Int.floor_intCast]
  · unfold pyInt
    rw [if_neg (not_le.mpr (by exact_mod_cast h)), ← Int.cast_neg, Int.floor_intCast,
      neg_neg]

lemma pyInt_eq_of_nonneg {q : ℚ} {n : ℤ} (h0 : 0 ≤ n) (h1 : (n : ℚ) ≤ q)
    (h2 : q < (n : ℚ) + 1) : pyInt q = n := by
  rw [pyInt_of_nonneg (le_trans (by exact_mod_cast h0) h1)]
  exact Int.floor_eq_iff.mpr ⟨h1, h2⟩

lemma two_rpow_rat_le_one {q : ℚ} (h : q ≤ 0) : (2 : ℝ) ^ ((q : ℚ) : ℝ) ≤ 1 :=
  Real.rpow_le_one_of_one_le_of_nonpos one_le_two (by exact_mod_cast h)

lemma one_lt_two_rpow_rat {q : ℚ} (h : 0 < q) : 1 < (2 : ℝ) ^ ((q : ℚ) : ℝ) :=
  Real.one_lt_rpow_iff_of_pos two_pos |>.mpr (Or.inl ⟨one_lt_two, by exact_mod_cast h⟩)

lemma lowStops_zero : lowStops 0 = -20 := by
  norm_num [lowStops, STOPS_LIST, EXP_RANGE, List.getD]

lemma highStops_last : highStops 16 = 20 := by
  norm_num [highStops, STOPS_LIST, EXP_RANGE, List.getD]

lemma lowStops_eight : lowStops 8 = -1/4 := by
  norm_num [lowStops, STOPS_LIST, EXP_RANGE, List.getD]

lemma highStops_eight : highStops 8 = 1/4 := by
  norm_num [highStops, STOPS_LIST, EXP_RANGE, List.getD]

/-- 18% gray lies in zone index 8 (nominal stop 0). -/
lemma inZone_gray18_eight : inZone GRAY18 8 := by
  constructor
  · unfold lowValue
    rw [lowStops_eight]
    calc GRAY18 * (2 : ℝ) ^ (((-1/4 : ℚ) : ℚ) : ℝ) ≤ GRAY18 * 1 :=
          mul_le_mul_of_nonneg_left (two_rpow_rat_le_one (by norm_num))
            (le_of_lt gray18_pos)
      _ = GRAY18 := mul_one _
  · unfold highValue
    rw [highStops_eight]
    calc GRAY18 = GRAY18 * 1 := (mul_one _).symm
      _ < GRAY18 * (2 : ℝ) ^ (((1/4 : ℚ) : ℚ) : ℝ) :=
          mul_lt_mul_of_pos_left (one_lt_two_rpow_rat (by norm_num)) gray18_pos

lemma lowValue_zero_le_gray18 : lowValue 0 ≤ GRAY18 := by
  unfold lowValue
  rw [lowStops_zero]
  calc GRAY18 * (2 : ℝ) ^ (((-20 : ℚ) : ℚ) : ℝ) ≤ GRAY18 * 1 :=
        mul_le_mul_of_nonneg_left (two_rpow_rat_le_one (by norm_num))
          (le_of_lt gray18_pos)
    _ = GRAY18 := mul_one _

lemma gray18_lt_highValue_last : GRAY18 < highValue 16 := by
  unfold highValue
  rw [highStops_last]
  calc GRAY18 = GRAY18 * 1 := (mul_one _).symm
    _ < GRAY18 * (2 : ℝ) ^ (((20 : ℚ) : ℚ) : ℝ) :=
        mul_lt_mul_of_pos_left (one_lt_two_rpow_rat (by norm_num)) gray18_pos

/-! ### Claim theorems -/

/-- C5: in the 17-entry zone table computed by `map_luminance_to_zones`,
every zone's low boundary is strictly below its high boundary, each
high boundary coincides with the next zone's low boundary, and the
outermost boundaries are taken at −20 and +20 stops. -/
theorem c5_zone_table_contiguity :
    (∀ i : Fin 17, lowValue i.val < highValue i.val) ∧
    (∀ i : Fin 16, highValue i.val = lowValue (i.val + 1)) ∧
    lowStops 0 = -20 ∧ highStops 16 = 20 := by
  refine ⟨?_, ?_, lowStops_zero, highStops_last⟩
  · intro i
    rw [lowValue_eq_bval i.isLt, highValue_eq_bval i.isLt]
    exact bval_lt (Nat.lt_succ_self _) (by omega)
  · intro i
    have h1 : i.val < 17 := by omega
    have h2 : i.val + 1 < 17 := by omega
    rw [highValue_eq_bval h1, lowValue_eq_bval h2]

/-- C1 counterexample: linear luminance 0 is produced by decoding (the
LogC4 fallback decoder clips code value 0 to exactly 0), yet none of
the 17 zone intervals of `map_luminance_to_zones` contains it, so it is
not the case that every non-negative decoded luminance lies in exactly
one zone. -/
theorem c1_counterexample :
    log_decoding_logc4_accurate 0 = 0 ∧ ∀ i : Fin 17, ¬ inZone 0 i.val := by
  constructor
  · unfold log_decoding_logc4_accurate
    rw [if_neg (by norm_num)]
    rw [max_eq_right (by norm_num)]
  · intro i
    exact not_inZone_zero i.val

/-- C1 (amended): every linear luminance inside the covered range
`[0.18·2^(−20), 0.18·2^20)` — from the first zone's low boundary to the
last zone's high boundary — lies in exactly one of the 17 zone
intervals; luminance below or above that range (e.g. exactly 0) lies in
none. -/
theorem c1_exactly_one_zone_in_range :
    ∀ y : ℝ, lowValue 0 ≤ y → y < highValue 16 → ∃! i : Fin 17, inZone y i.val := by
  intro y h0 h16
  rw [lowValue_eq_bval (by omega)] at h0
  rw [highValue_eq_bval (by omega)] at h16
  obtain ⟨i, hi, hlow, hhigh⟩ := exists_band bval y 17 h0 h16
  refine ⟨⟨i, hi⟩, (inZone_iff hi).mpr ⟨hlow, hhigh⟩, ?_⟩
  intro j hj
  exact Fin.ext (zone_unique j.isLt hi hj ((inZone_iff hi).mpr ⟨hlow, hhigh⟩))

/-- C1 witness: 18% gray lies in the covered range, hence in exactly
one zone. -/
theorem c1_witness : ∃! i : Fin 17, inZone GRAY18 i.val :=
  c1_exactly_one_zone_in_range GRAY18 lowValue_zero_le_gray18 gray18_lt_highValue_last

/-- C9: a pixel whose linear luminance is matched by no zone interval
keeps the zero-initialized output value `[0,0,0]` (black) in the zone
map; in particular luminance exactly 0, which lies below the lowest
zone boundary, maps to black. -/
theorem c9_unmatched_luminance_black :
    (∀ y : ℝ, (∀ i, i < 17 → ¬ inZone y i) →
      map_luminance_to_zones_pixel y = (0, 0, 0)) ∧
    map_luminance_to_zones_pixel 0 = (0, 0, 0) := by
  have hmain : ∀ y : ℝ, (∀ i, i < 17 → ¬ inZone y i) →
      map_luminance_to_zones_pixel y = (0, 0, 0) := by
    intro y h
    unfold map_luminance_to_zones_pixel
    exact foldl_zoneStep_no_match _ _ (fun i hi => h i (List.mem_range.mp hi))
  exact ⟨hmain, hmain 0 (fun i _ => not_inZone_zero i)⟩

/-- C9 witness: the concrete luminance 0 receives black. -/
theorem c9_witness : map_luminance_to_zones_pixel 0 = (0, 0, 0) :=
  c9_unmatched_luminance_black.1 0 (fun i _ => not_inZone_zero i)

lemma ten_rpow_third_gt : (1.5 : ℝ) < (10 : ℝ) ^ ((1 : ℝ) / 3) := by
  have h : (1.5 : ℝ) = ((1.5 : ℝ) ^ (3 : ℕ)) ^ ((1 : ℝ) / 3) := by
    rw [← Real.rpow_natCast (1.5 : ℝ) 3, ← Real.rpow_mul (by norm_num)]
    norm_num
  rw [h]
  exact Real.rpow_lt_rpow (by positivity) (by norm_num) (by norm_num)

/-- The in-repo LogC4 decoder never attains 0.18: below its cut it
clips to 0, above the cut it exceeds `10^(1/3) - b/a > 0.18`. -/
lemma logc4_never_gray (v : ℝ) : log_decoding_logc4_accurate v ≠ GRAY18 := by
  unfold log_decoding_logc4_accurate GRAY18
  by_cases hv : v > 0.0851858618842153
  · rw [if_pos hv]
    intro h
    have he : (1 : ℝ) / 3 < (v - 0.0562935137369496) / 0.0647954196341293 := by
      rw [div_lt_div_iff₀ (by norm_num) (by norm_num)]
      linarith
    have h10 : (10 : ℝ) ^ ((1 : ℝ) / 3)
        < (10 : ℝ) ^ ((v - 0.0562935137369496) / 0.0647954196341293) :=
      (Real.rpow_lt_rpow_left_iff (by norm_num)).mpr he
    have hba : (0.0799017958419154 : ℝ) / 0.0647954196341293 < 1.32 := by
      rw [div_lt_iff₀ (by norm_num)]
      norm_num
    have hE : (0.18 : ℝ) < (10 : ℝ) ^ ((v - 0.0562935137369496) / 0.0647954196341293)
        - 0.0799017958419154 / 0.0647954196341293 := by
      have := ten_rpow_third_gt
      linarith
    have hmax : (0.18 : ℝ) < max ((10 : ℝ) ^ ((v - 0.0562935137369496) / 0.0647954196341293)
        - 0.0799017958419154 / 0.0647954196341293) 0 :=
      lt_of_lt_of_le hE (le_max_left _ _)
    linarith [h ▸ hmax]
  · rw [if_neg hv]
    have hnum : v - 0.0851858618842153 ≤ 0 := by linarith [not_lt.mp hv]
    have hdiv : (v - 0.0851858618842153) / 0.0799017958419154 ≤ 0 :=
      div_nonpos_iff.mpr (Or.inr ⟨hnum, by norm_num⟩)
    rw [max_eq_right hdiv]
    norm_num

/-- C4: the classification side of the claim holds — luminance exactly
0.18 (a uniform R=G=B pixel of linear value 0.18 under the BT.2020
weights) lies in zone index 8 and only there, whose nominal stop is 0
and whose 8-bit palette entry is `[144,140,135]` — but the in-repo
LogC4 decoder `_log_decoding_logc4_accurate` is discontinuous at its
cut (it jumps from 0 to above 1.5), so **no** code value `v` satisfies
`decode(v) = 0.18`: the premise of the claim is unsatisfiable, contrary
to the function's own "accurate ARRI LogC4" documentation and the
spec's mid-gray contract. -/
theorem c4_logc4_midgray_code_bug :
    (∀ v : ℝ, log_decoding_logc4_accurate v ≠ GRAY18) ∧
    rgb_to_y_bt2020 GRAY18 GRAY18 GRAY18 = GRAY18 ∧
    inZone GRAY18 8 ∧
    (∀ j, j < 17 → j ≠ 8 → ¬ inZone GRAY18 j) ∧
    STOPS_LIST.getD 8 0 = 0 ∧
    COLOR_LIST_8BIT.getD 8 (0, 0, 0) = (144, 140, 135) := by
  refine ⟨logc4_never_gray, ?_, inZone_gray18_eight, ?_, ?_, by decide⟩
  · unfold rgb_to_y_bt2020 GRAY18
    norm_num
  · intro j hj hne hz
    exact hne (zone_unique hj (by norm_num) hz inZone_gray18_eight)
  · norm_num [STOPS_LIST, List.getD]

/-- C6: selecting the `"linear"` curve yields `None` as decode function
and `create_el_zone_map` then uses the input frame itself (a copy) as
the linear frame: decoding is the identity on every sample, for any
state of the optional `colour` dependency. -/
theorem c6_linear_identity_decode :
    ∀ (colourC4 colourS3 : ℝ → ℝ) (hasColour : Bool) (x : ℝ),
      get_decode_function hasColour "linear" = DecodeChoice.linearNone ∧
      linear_image_sample colourC4 colourS3 (get_decode_function hasColour "linear") x
        = x := by
  intro colourC4 colourS3 hasColour x
  exact ⟨rfl, rfl⟩

/-- C6 witness at a concrete sample value. -/
theorem c6_witness :
    linear_image_sample id id (get_decode_function true "linear") (37 / 100) = 37 / 100 :=
  (c6_linear_identity_decode id id true (37 / 100)).2

/-- C7: every selector string outside the recognized set
`{"linear","logc4","slog3","apple_log","redlog3"}` selects the generic
fallback decode `v ↦ 2^((v−0.5)·14)`; the dispatch is total, so an
unrecognized selector is never fatal. -/
theorem c7_unrecognized_fallback :
    ∀ (colourC4 colourS3 : ℝ → ℝ) (hasColour : Bool) (fmt : String),
      fmt ≠ "linear" → fmt ≠ "logc4" → fmt ≠ "slog3" → fmt ≠ "apple_log" →
      fmt ≠ "redlog3" →
      get_decode_function hasColour fmt = DecodeChoice.genericFallback ∧
      ∀ v : ℝ, linear_image_sample colourC4 colourS3 DecodeChoice.genericFallback v
        = (2 : ℝ) ^ ((v - 0.5) * 14) := by
  intro colourC4 colourS3 hasColour fmt h1 h2 h3 h4 h5
  refine ⟨?_, fun v => rfl⟩
  unfold get_decode_function
  rw [if_neg h1, if_neg h2, if_neg (fun h => h3 h.1), if_neg h4, if_neg h5]

/-- C7 witness: the unrecognized selector `"cineon"`. -/
theorem c7_witness :
    get_decode_function true "cineon" = DecodeChoice.genericFallback ∧
    ∀ v : ℝ, linear_image_sample id id DecodeChoice.genericFallback v
      = (2 : ℝ) ^ ((v - 0.5) * 14) :=
  c7_unrecognized_fallback id id true "cineon" (by decide) (by decide) (by decide)
    (by decide) (by decide)

/-- C3 counterexample: a 100×2000 (portrait) frame resized to fill the
960-pixel quadrant width gets `top_height = 19200 > 1080`, so the
four-quadrant placement does not fit the 1920×1080 canvas for every
input frame. -/
theorem c3_counterexample :
    top_image_height 2000 100 1920 = 19200 ∧
    ¬ top_image_height 2000 100 1920 ≤ 1080 ∧
    bottom_height 2000 100 1920 1080 < 0 := by
  refine ⟨rfl, by decide, by decide⟩

/-- C3 (amended): for frames whose aspect ratio satisfies
`fh·960 ≤ fw·1080` (in particular any landscape or square frame), the
width-filling resize at output size (1920,1080) yields
`top_height ≤ 1080` and a non-negative remaining bottom height, so the
quadrant placements fit. -/
theorem c3_top_height_bound :
    ∀ fh fw : ℕ, 0 < fw → fh * 960 ≤ fw * 1080 →
      top_image_height fh fw 1920 ≤ 1080 ∧ 0 ≤ bottom_height fh fw 1920 1080 := by
  intro fh fw hw h
  have htop : top_image_height fh fw 1920 ≤ 1080 := by
    unfold top_image_height resize_to_fill_width_height quad_width
    have h2 : fh * (1920 / 2) / fw ≤ fw * 1080 / fw := by
      refine Nat.div_le_div_right ?_
      calc fh * (1920 / 2) = fh * 960 := by norm_num
        _ ≤ fw * 1080 := h
    rwa [Nat.mul_div_cancel_left 1080 hw] at h2
  refine ⟨htop, ?_⟩
  unfold bottom_height
  omega

/-- C3 witness: a 1920×1080 landscape frame (fh = 1080, fw = 1920). -/
theorem c3_witness :
    top_image_height 1080 1920 1920 ≤ 1080 ∧ 0 ≤ bottom_height 1080 1920 1920 1080 :=
  c3_top_height_bound 1080 1920 (by decide) (by decide)

/-- Any clipped-then-truncated vectorscope coordinate lies within
`[0, n-1]` for an axis of length `n`. -/
lemma clip_floor_bounds (q : ℚ) (n : ℕ) (hn : 0 < n) :
    0 ≤ pyInt (npClip q 0 ((n : ℚ) - 1)) ∧
    pyInt (npClip q 0 ((n : ℚ) - 1)) ≤ (n : ℤ) - 1 := by
  have h1 : (1 : ℚ) ≤ (n : ℚ) := by exact_mod_cast hn
  have hval0 : (0 : ℚ) ≤ npClip q 0 ((n : ℚ) - 1) := by
    unfold npClip
    exact le_min (le_max_right _ _) (by linarith)
  have hval1 : npClip q 0 ((n : ℚ) - 1) ≤ (n : ℚ) - 1 := min_le_right _ _
  rw [pyInt_of_nonneg hval0]
  refine ⟨Int.floor_nonneg.mpr hval0, ?_⟩
  have h2 : ⌊npClip q 0 ((n : ℚ) - 1)⌋ ≤ ⌊(n : ℚ) - 1⌋ := Int.floor_le_floor hval1
  have h3 : ⌊(n : ℚ) - 1⌋ = (n : ℤ) - 1 := by
    rw [show ((n : ℚ) - 1) = (((n : ℤ) - 1 : ℤ) : ℚ) by push_cast; ring,
      Int.floor_intCast]
  omega

/-- C10: for every canvas size and every chroma pair, the vectorscope
plot coordinates `(x_coord, y_coord)` are clamped into
`[0, width−1] × [0, height−1]` before the write, so `create_vectorscope`
never writes outside the canvas. -/
theorem c10_vectorscope_clip_bounds :
    ∀ (W H : ℕ) (u v : ℚ), 0 < W → 0 < H →
      (0 ≤ vscopeXCoord W H v ∧ vscopeXCoord W H v ≤ (W : ℤ) - 1) ∧
      (0 ≤ vscopeYCoord W H u ∧ vscopeYCoord W H u ≤ (H : ℤ) - 1) := by
  intro W H u v hW hH
  unfold vscopeXCoord vscopeYCoord
  exact ⟨clip_floor_bounds _ W hW, clip_floor_bounds _ H hH⟩

/-- C10 witness: a far-out-of-gamut chroma pair on the default canvas
stays within bounds. -/
theorem c10_witness :
    (0 ≤ vscopeXCoord 480 540 (-100) ∧ vscopeXCoord 480 540 (-100) ≤ (480 : ℤ) - 1) ∧
    (0 ≤ vscopeYCoord 480 540 100 ∧ vscopeYCoord 480 540 100 ≤ (540 : ℤ) - 1) :=
  c10_vectorscope_clip_bounds 480 540 100 (-100) (by decide) (by decide)

/-- On the default 480×540 canvas, zero V chroma plots at the center
column 240. -/
lemma vscopeXCoord_zero_chroma : vscopeXCoord 480 540 0 = 240 := by
  unfold vscopeXCoord vscopeCenterX vscopeScale
  rw [show (480 / 2 : ℕ) = 240 from rfl, show (min 480 540 / 3 : ℕ) = 160 from rfl]
  rw [show ((240 : ℕ) : ℚ) + 0 * ((160 : ℕ) : ℚ) = 240 by push_cast; ring]
  rw [show ((480 : ℕ) : ℚ) - 1 = 479 by push_cast; norm_num]
  unfold npClip
  rw [max_eq_left (by norm_num), min_eq_left (by norm_num)]
  exact pyInt_eq_of_nonneg (by norm_num) (by norm_num) (by norm_num)

/-- On the default 480×540 canvas, the U chroma `t/100000` of a uniform
gray sample `t ∈ (0.01, 1]` plots at row 269, one above center. -/
lemma vscopeYCoord_gray (t : ℚ) (h1 : 1 / 100 < t) (h2 : t ≤ 1) :
    vscopeYCoord 480 540 (t / 100000) = 269 := by
  unfold vscopeYCoord vscopeCenterY vscopeScale
  rw [show (540 / 2 : ℕ) = 270 from rfl, show (min 480 540 / 3 : ℕ) = 160 from rfl]
  rw [show ((270 : ℕ) : ℚ) - t / 100000 * ((160 : ℕ) : ℚ) = 270 - t / 625 by
    push_cast; ring]
  rw [show ((540 : ℕ) : ℚ) - 1 = 539 by push_cast; norm_num]
  unfold npClip
  rw [max_eq_left (by linarith), min_eq_left (by linarith)]
  refine pyInt_eq_of_nonneg (by norm_num) ?_ ?_
  · push_cast
    linarith
  · push_cast
    linarith

/-- C2 counterexample: for the uniform gray pixel `(1,1,1)` on the
default 480×540 canvas, the luma 1 exceeds the 0.01 noise floor but the
mark lands at `(240, 269)`, one row above the canvas center
`(240, 270)`: the U coefficients sum to 0.00001, not 0, and the
truncation sends the mark off center. -/
theorem c2_counterexample :
    (1 / 100 : ℚ) < yuv_y 1 1 1 ∧
    vscopeXCoord 480 540 (yuv_v 1 1 1) = 240 ∧
    vscopeYCoord 480 540 (yuv_u 1 1 1) = 269 ∧
    (vscopeCenterY 540 : ℤ) = 270 := by
  have hv : yuv_v 1 1 1 = 0 := by unfold yuv_v; norm_num
  have hu : yuv_u 1 1 1 = 1 / 100000 := by unfold yuv_u; norm_num
  refine ⟨by unfold yuv_y; norm_num, ?_, ?_, rfl⟩
  · rw [hv]
    exact vscopeXCoord_zero_chroma
  · rw [hu, show (1 / 100000 : ℚ) = 1 / 100000 from rfl]
    have := vscopeYCoord_gray 1 (by norm_num) le_rfl
    rwa [show (1 : ℚ) / 100000 = 1 / 100000 from rfl] at this

/-- C2 (amended): for every uniform gray sample value `t` with
`0.01 < t ≤ 1` on the default 480×540 canvas, the luma equals `t`, the
V chroma is exactly 0 so the mark's x-coordinate is the center column,
but the U chroma is `t/100000 > 0`, so the mark's y-coordinate is
`center_y − 1`, one row above the center. -/
theorem c2_uniform_gray_marks :
    ∀ t : ℚ, 1 / 100 < t → t ≤ 1 →
      yuv_y t t t = t ∧ yuv_v t t t = 0 ∧
      vscopeXCoord 480 540 (yuv_v t t t) = (vscopeCenterX 480 : ℤ) ∧
      vscopeYCoord 480 540 (yuv_u t t t) = (vscopeCenterY 540 : ℤ) - 1 := by
  intro t h1 h2
  have hy : yuv_y t t t = t := by unfold yuv_y; ring
  have hv : yuv_v t t t = 0 := by unfold yuv_v; ring
  have hu : yuv_u t t t = t / 100000 := by unfold yuv_u; ring
  refine ⟨hy, hv, ?_, ?_⟩
  · rw [hv, show ((vscopeCenterX 480 : ℕ) : ℤ) = 240 from rfl]
    exact vscopeXCoord_zero_chroma
  · rw [hu, show ((vscopeCenterY 540 : ℕ) : ℤ) - 1 = 269 from rfl]
    exact vscopeYCoord_gray t h1 h2

/-- C2 witness: the concrete gray value 1/2. -/
theorem c2_witness :
    yuv_y (1 / 2) (1 / 2) (1 / 2) = 1 / 2 ∧ yuv_v (1 / 2) (1 / 2) (1 / 2) = 0 ∧
    vscopeXCoord 480 540 (yuv_v (1 / 2) (1 / 2) (1 / 2)) = (vscopeCenterX 480 : ℤ) ∧
    vscopeYCoord 480 540 (yuv_u (1 / 2) (1 / 2) (1 / 2)) = (vscopeCenterY 540 : ℤ) - 1 :=
  c2_uniform_gray_marks (1 / 2) (by norm_num) (by norm_num)

/-! ### Waveform grid evaluation at the default 480×540 canvas -/

lemma pyInt_500 : pyInt (500 : ℚ) = 500 :=
  pyInt_eq_of_nonneg (by norm_num) (by norm_num) (by norm_num)

lemma ireRow_540_0 : ireRow 540 0 = 520 := by
  unfold ireRow
  rw [show (((540 : ℕ) : ℚ) - 40) * (1 - ((0 : ℕ) : ℚ) / 100) = 500 by push_cast; norm_num]
  rw [pyInt_500]
  decide

lemma ireRow_540_25 : ireRow 540 25 = 395 := by
  unfold ireRow
  rw [show (((540 : ℕ) : ℚ) - 40) * (1 - ((25 : ℕ) : ℚ) / 100) = 375 by push_cast; norm_num]
  rw [show pyInt (375 : ℚ) = 375 from
    pyInt_eq_of_nonneg (by norm_num) (by norm_num) (by norm_num)]
  decide

lemma ireRow_540_50 : ireRow 540 50 = 270 := by
  unfold ireRow
  rw [show (((540 : ℕ) : ℚ) - 40) * (1 - ((50 : ℕ) : ℚ) / 100) = 250 by push_cast; norm_num]
  rw [show pyInt (250 : ℚ) = 250 from
    pyInt_eq_of_nonneg (by norm_num) (by norm_num) (by norm_num)]
  decide

lemma ireRow_540_75 : ireRow 540 75 = 145 := by
  unfold ireRow
  rw [show (((540 : ℕ) : ℚ) - 40) * (1 - ((75 : ℕ) : ℚ) / 100) = 125 by push_cast; norm_num]
  rw [show pyInt (125 : ℚ) = 125 from
    pyInt_eq_of_nonneg (by norm_num) (by norm_num) (by norm_num)]
  decide

lemma ireRow_540_100 : ireRow 540 100 = 20 := by
  unfold ireRow
  rw [show (((540 : ℕ) : ℚ) - 40) * (1 - ((100 : ℕ) : ℚ) / 100) = 0 by push_cast; norm_num]
  rw [show pyInt (0 : ℚ) = 0 from
    pyInt_eq_of_nonneg (by norm_num) (by norm_num) (by norm_num)]
  decide

lemma y75Row_540 : y75Row 540 = 145 := by
  unfold y75Row
  rw [show (((540 : ℕ) : ℚ) - 40) * 0.25 = 125 by push_cast; norm_num]
  rw [show pyInt (125 : ℚ) = 125 from
    pyInt_eq_of_nonneg (by norm_num) (by norm_num) (by norm_num)]
  decide

lemma y50Row_540 : y50Row 540 = 270 := by
  unfold y50Row
  rw [show (((540 : ℕ) : ℚ) - 40) * 0.5 = 250 by push_cast; norm_num]
  rw [show pyInt (250 : ℚ) = 250 from
    pyInt_eq_of_nonneg (by norm_num) (by norm_num) (by norm_num)]
  decide

lemma y18Row_540 : y18Row 540 = 430 := by
  unfold y18Row
  rw [show (((540 : ℕ) : ℚ) - 40) * 0.82 = 410 by push_cast; norm_num]
  rw [show pyInt (410 : ℚ) = 410 from
    pyInt_eq_of_nonneg (by norm_num) (by norm_num) (by norm_num)]
  decide

/-- The trace row for luminance 0 on a height-540 canvas is `540 − 20`. -/
lemma traceY_540_zero : traceY 540 0 = 520 := by
  unfold traceY npClip
  rw [max_self (0 : ℚ), min_eq_left (by norm_num : (0 : ℚ) ≤ 1)]
  rw [show ((1 : ℚ) - 0) * (((540 : ℕ) : ℚ) - 40) + 20 = 520 by push_cast; norm_num]
  rw [show pyInt (520 : ℚ) = 520 from
    pyInt_eq_of_nonneg (by norm_num) (by norm_num) (by norm_num)]
  decide

lemma grid540_pix_520 (base : Canvas) :
    draw_waveform_grid base 480 540 520 0 = (48, 48, 48) := by
  unfold draw_waveform_grid setRowGuarded setColGuarded setRowSlice sliceIdx
  rw [ireRow_540_0, ireRow_540_25, ireRow_540_50, ireRow_540_75, ireRow_540_100,
    y75Row_540, y50Row_540, y18Row_540]
  norm_num [min_def, max_def]

lemma grid540_pix_395 (base : Canvas) :
    draw_waveform_grid base 480 540 395 0 = (48, 48, 48) := by
  unfold draw_waveform_grid setRowGuarded setColGuarded setRowSlice sliceIdx
  rw [ireRow_540_0, ireRow_540_25, ireRow_540_50, ireRow_540_75, ireRow_540_100,
    y75Row_540, y50Row_540, y18Row_540]
  norm_num [min_def, max_def]

lemma grid540_pix_270 (base : Canvas) :
    draw_waveform_grid base 480 540 270 0 = (96, 96, 96) := by
  unfold draw_waveform_grid setRowGuarded setColGuarded setRowSlice sliceIdx
  rw [ireRow_540_0, ireRow_540_25, ireRow_540_50, ireRow_540_75, ireRow_540_100,
    y75Row_540, y50Row_540, y18Row_540]
  norm_num [min_def, max_def]

lemma grid540_pix_145 (base : Canvas) :
    draw_waveform_grid base 480 540 145 0 = (96, 96, 96) := by
  unfold draw_waveform_grid setRowGuarded setColGuarded setRowSlice sliceIdx
  rw [ireRow_540_0, ireRow_540_25, ireRow_540_50, ireRow_540_75, ireRow_540_100,
    y75Row_540, y50Row_540, y18Row_540]
  norm_num [min_def, max_def]

lemma grid540_pix_20 (base : Canvas) :
    draw_waveform_grid base 480 540 20 0 = (160, 160, 160) := by
  unfold draw_waveform_grid setRowGuarded setColGuarded setRowSlice sliceIdx
  rw [ireRow_540_0, ireRow_540_25, ireRow_540_50, ireRow_540_75, ireRow_540_100,
    y75Row_540, y50Row_540, y18Row_540]
  norm_num [min_def, max_def]

lemma grid540_pix_21 (base : Canvas) :
    draw_waveform_grid base 480 540 21 0 = (160, 160, 160) := by
  unfold draw_waveform_grid setRowGuarded setColGuarded setRowSlice sliceIdx
  rw [ireRow_540_0, ireRow_540_25, ireRow_540_50, ireRow_540_75, ireRow_540_100,
    y75Row_540, y50Row_540, y18Row_540]
  norm_num [min_def, max_def]

lemma grid540_pix_430 (base : Canvas) :
    draw_waveform_grid base 480 540 430 0 = (80, 80, 80) := by
  unfold draw_waveform_grid setRowGuarded setColGuarded setRowSlice sliceIdx
  rw [ireRow_540_0, ireRow_540_25, ireRow_540_50, ireRow_540_75, ireRow_540_100,
    y75Row_540, y50Row_540, y18Row_540]
  norm_num [min_def, max_def]

lemma grid540_pix_518 (base : Canvas) :
    draw_waveform_grid base 480 540 518 0 = (160, 160, 160) := by
  unfold draw_waveform_grid setRowGuarded setColGuarded setRowSlice sliceIdx
  rw [ireRow_540_0, ireRow_540_25, ireRow_540_50, ireRow_540_75, ireRow_540_100,
    y75Row_540, y50Row_540, y18Row_540]
  norm_num [min_def, max_def]

lemma grid540_pix_519 (base : Canvas) :
    draw_waveform_grid base 480 540 519 0 = (160, 160, 160) := by
  unfold draw_waveform_grid setRowGuarded setColGuarded setRowSlice sliceIdx
  rw [ireRow_540_0, ireRow_540_25, ireRow_540_50, ireRow_540_75, ireRow_540_100,
    y75Row_540, y50Row_540, y18Row_540]
  norm_num [min_def, max_def]

lemma grid540_pix_ticks (base : Canvas) (x : ℕ)
    (hx : x = 60 ∨ x = 120 ∨ x = 180 ∨ x = 240 ∨ x = 300 ∨ x = 360 ∨ x = 420) :
    draw_waveform_grid base 480 540 0 x = (32, 32, 32) := by
  unfold draw_waveform_grid setRowGuarded setColGuarded setRowSlice sliceIdx
  rw [ireRow_540_0, ireRow_540_25, ireRow_540_50, ireRow_540_75, ireRow_540_100,
    y75Row_540, y50Row_540, y18Row_540]
  rcases hx with h | h | h | h | h | h | h <;> subst h <;>
    norm_num [min_def, max_def]

lemma logLuma_black : logLuma ((0 : ℚ), (0 : ℚ), (0 : ℚ)) = 0 := by
  unfold logLuma
  norm_num

/-- For an all-black frame, every trace write of the waveform at the
default canvas targets row 520 = 540 − 20. -/
lemma traceTargets_black_row {f : QFrame} (hf : ∀ i j, f i j = (0, 0, 0)) (h w : ℕ) :
    ∀ t ∈ traceTargets f h w (480, 540), t.1 = 520 := by
  intro t ht
  unfold traceTargets at ht
  simp only [List.mem_flatMap, List.mem_map] at ht
  obtain ⟨p, _, r, _, heq⟩ := ht
  rw [← heq]
  show traceY 540 (logLuma (f r p.2)) = 520
  rw [hf r p.2, logLuma_black, traceY_540_zero]

/-- For an all-black frame with at least one row, every waveform column
receives a trace write at row 520. -/
lemma traceTargets_black_cover {f : QFrame} (hf : ∀ i j, f i j = (0, 0, 0))
    (h w : ℕ) (hh : 1 ≤ h) :
    ∀ wx, wx < 480 → ((520 : ℤ), wx) ∈ traceTargets f h w (480, 540) := by
  intro wx hwx
  unfold traceTargets
  simp only [List.mem_flatMap, List.mem_map]
  refine ⟨(wx, xPosition w 480 wx), ?_, 0, ?_, ?_⟩
  · unfold enumXPositions
    simp only [List.mem_map, List.mem_range]
    exact ⟨wx, hwx, rfl⟩
  · unfold sampleRows
    simp only [List.mem_filter, List.mem_range, decide_eq_true_eq]
    exact ⟨hh, Nat.zero_mod _⟩
  · show (traceY 540 (logLuma (f 0 (xPosition w 480 wx))), wx) = ((520 : ℤ), wx)
    rw [hf 0 _, logLuma_black, traceY_540_zero]

lemma foldl_trace_off_row {y x : ℕ} (hy : y ≠ 520) :
    ∀ (l : List (ℤ × ℕ)) (acc : Canvas), (∀ t ∈ l, t.1 = (520 : ℤ)) →
      (l.foldl
        (fun acc t => fun r c =>
          if r = t.1.toNat ∧ c = t.2 then addGreen (acc t.1.toNat t.2) else acc r c)
        acc) y x = acc y x := by
  intro l
  induction l with
  | nil => intro acc _; rfl
  | cons a tl ih =>
    intro acc hmem
    rw [List.foldl_cons, ih _ (fun t ht => hmem t (List.mem_cons_of_mem a ht))]
    have ha : a.1 = (520 : ℤ) := hmem a (List.mem_cons_self a tl)
    rw [if_neg]
    intro hcon
    apply hy
    rw [hcon.1, ha]
    rfl

/-- For an all-black frame, the trace phase leaves every row other than
520 at the zero-initialized background. -/
lemma traceCanvas_black_off_row {f : QFrame} (hf : ∀ i j, f i j = (0, 0, 0))
    (h w : ℕ) :
    ∀ y x : ℕ, y ≠ 520 → traceCanvas f h w (480, 540) y x = ((0, 0, 0) : Color) := by
  intro y x hy
  unfold traceCanvas
  rw [foldl_trace_off_row hy _ _ (traceTargets_black_row hf h w)]

/-- At the default canvas, every reference line and tick of the grid
pass is present in the final waveform image, whatever canvas it is
drawn over. -/
lemma allWaveformLinesPresent_540 (base : Canvas) :
    allWaveformLinesPresent (draw_waveform_grid base 480 540) 480 540 := by
  unfold allWaveformLinesPresent
  refine ⟨?_, ?_, ?_, ?_, ?_, ?_, ?_, ?_, ?_⟩
  · intro p hp
    fin_cases hp
    · rw [ireRow_540_0]
      exact ⟨by norm_num, by norm_num, 0, by norm_num,
        by rw [show ((520 : ℤ)).toNat = 520 from rfl, grid540_pix_520]; decide⟩
    · rw [ireRow_540_25]
      exact ⟨by norm_num, by norm_num, 0, by norm_num,
        by rw [show ((395 : ℤ)).toNat = 395 from rfl, grid540_pix_395]; decide⟩
    · rw [ireRow_540_50]
      exact ⟨by norm_num, by norm_num, 0, by norm_num,
        by rw [show ((270 : ℤ)).toNat = 270 from rfl, grid540_pix_270]; decide⟩
    · rw [ireRow_540_75]
      exact ⟨by norm_num, by norm_num, 0, by norm_num,
        by rw [show ((145 : ℤ)).toNat = 145 from rfl, grid540_pix_145]; decide⟩
    · rw [ireRow_540_100]
      exact ⟨by norm_num, by norm_num, 0, by norm_num,
        by rw [show ((20 : ℤ)).toNat = 20 from rfl, grid540_pix_20]; decide⟩
  · intro i hi
    fin_cases hi
    · exact ⟨by norm_num, 0, by norm_num,
        by rw [show (480 * 1 / 8 : ℕ) = 60 from rfl,
          grid540_pix_ticks base 60 (by norm_num)]; decide⟩
    · exact ⟨by norm_num, 0, by norm_num,
        by rw [show (480 * 2 / 8 : ℕ) = 120 from rfl,
          grid540_pix_ticks base 120 (by norm_num)]; decide⟩
    · exact ⟨by norm_num, 0, by norm_num,
        by rw [show (480 * 3 / 8 : ℕ) = 180 from rfl,
          grid540_pix_ticks base 180 (by norm_num)]; decide⟩
    · exact ⟨by norm_num, 0, by norm_num,
        by rw [show (480 * 4 / 8 : ℕ) = 240 from rfl,
          grid540_pix_ticks base 240 (by norm_num)]; decide⟩
    · exact ⟨by norm_num, 0, by norm_num,
        by rw [show (480 * 5 / 8 : ℕ) = 300 from rfl,
          grid540_pix_ticks base 300 (by norm_num)]; decide⟩
    · exact ⟨by norm_num, 0, by norm_num,
        by rw [show (480 * 6 / 8 : ℕ) = 360 from rfl,
          grid540_pix_ticks base 360 (by norm_num)]; decide⟩
    · exact ⟨by norm_num, 0, by norm_num,
        by rw [show (480 * 7 / 8 : ℕ) = 420 from rfl,
          grid540_pix_ticks base 420 (by norm_num)]; decide⟩
  · exact ⟨by norm_num, by norm_num, 0, by norm_num,
      by rw [show ((20 : ℤ)).toNat = 20 from rfl, grid540_pix_20]; decide⟩
  · exact ⟨by norm_num, by norm_num, 0, by norm_num,
      by rw [show ((21 : ℤ)).toNat = 21 from rfl, grid540_pix_21]; decide⟩
  · rw [y75Row_540]
    exact ⟨by norm_num, by norm_num, 0, by norm_num,
      by rw [show ((145 : ℤ)).toNat = 145 from rfl, grid540_pix_145]; decide⟩
  · rw [y50Row_540]
    exact ⟨by norm_num, by norm_num, 0, by norm_num,
      by rw [show ((270 : ℤ)).toNat = 270 from rfl, grid540_pix_270]; decide⟩
  · rw [y18Row_540]
    exact ⟨by norm_num, by norm_num, 0, by norm_num,
      by rw [show ((430 : ℤ)).toNat = 430 from rfl, grid540_pix_430]; decide⟩
  · exact ⟨by norm_num, by norm_num, 0, by norm_num,
      by rw [show ((540 : ℕ) : ℤ) - 22 = 518 from rfl,
        show ((518 : ℤ)).toNat = 518 from rfl, grid540_pix_518]; decide⟩
  · exact ⟨by norm_num, by norm_num, 0, by norm_num,
      by rw [show ((540 : ℕ) : ℤ) - 21 = 519 from rfl,
        show ((519 : ℤ)).toNat = 519 from rfl, grid540_pix_519]; decide⟩

/-- C8 counterexample: at the requested canvas size (480, 20) with an
all-black 8×8 frame, the 100% IRE grid line is computed at row 20,
which is outside the 20-row canvas and is skipped by the guard, so not
every horizontal grid line is present in the output. -/
theorem c8_counterexample :
    ¬ allWaveformLinesPresent
        ((create_waveform (fun _ _ => ((0 : ℚ), (0 : ℚ), (0 : ℚ))) 8 8 (480, 20)).pixel)
        480 20 := by
  intro hall
  have h100 := hall.1 100 (by norm_num)
  have he : ireRow 20 100 = 20 := by
    unfold ireRow
    rw [show (((20 : ℕ) : ℚ) - 40) * (1 - ((100 : ℕ) : ℚ) / 100) = 0 by
      push_cast; norm_num]
    rw [show pyInt (0 : ℚ) = 0 from
      pyInt_eq_of_nonneg (by norm_num) (by norm_num) (by norm_num)]
    decide
  rw [he] at h100
  exact absurd h100.2.1 (by norm_num)

/-- C8 (amended): `create_waveform` returns an image of exactly the
requested height (and width) for every frame and size; and for an
all-black frame at the default canvas size (480, 540): every grid /
reference line and vertical tick is present in the output, every trace
write targets the 0%-luminance row `540 − 20 = 520`, every one of the
480 waveform columns receives such a write, and the trace phase leaves
every other row untouched. -/
theorem c8_waveform_properties :
    (∀ (f : QFrame) (h w : ℕ) (size : ℕ × ℕ),
      (create_waveform f h w size).height = size.2 ∧
      (create_waveform f h w size).width = size.1) ∧
    (∀ (f : QFrame) (h w : ℕ), 1 ≤ h → 1 ≤ w → (∀ i j, f i j = (0, 0, 0)) →
      allWaveformLinesPresent ((create_waveform f h w (480, 540)).pixel) 480 540 ∧
      (∀ t ∈ traceTargets f h w (480, 540), t.1 = (520 : ℤ)) ∧
      (∀ wx, wx < 480 → ((520 : ℤ), wx) ∈ traceTargets f h w (480, 540)) ∧
      (∀ y x : ℕ, y ≠ 520 → traceCanvas f h w (480, 540) y x = ((0, 0, 0) : Color))) := by
  refine ⟨fun f h w size => ⟨rfl, rfl⟩, ?_⟩
  intro f h w hh _ hf
  exact ⟨allWaveformLinesPresent_540 _, traceTargets_black_row hf h w,
    traceTargets_black_cover hf h w hh, traceCanvas_black_off_row hf h w⟩

/-- C8 witness: the all-black 1×1 frame at the default canvas. -/
theorem c8_witness :
    allWaveformLinesPresent
      ((create_waveform (fun _ _ => ((0 : ℚ), (0 : ℚ), (0 : ℚ))) 1 1 (480, 540)).pixel)
      480 540 ∧
    (∀ t ∈ traceTargets (fun _ _ => ((0 : ℚ), (0 : ℚ), (0 : ℚ))) 1 1 (480, 540),
      t.1 = (520 : ℤ)) ∧
    (∀ wx, wx < 480 →
      ((520 : ℤ), wx) ∈ traceTargets (fun _ _ => ((0 : ℚ), (0 : ℚ), (0 : ℚ))) 1 1 (480, 540)) ∧
    (∀ y x : ℕ, y ≠ 520 →
      traceCanvas (fun _ _ => ((0 : ℚ), (0 : ℚ), (0 : ℚ))) 1 1 (480, 540) y x
        = ((0, 0, 0) : Color)) :=
  c8_waveform_properties.2 (fun _ _ => ((0 : ℚ), (0 : ℚ), (0 : ℚ))) 1 1 (by norm_num)
    (by norm_num) (fun _ _ => rfl)

end ELZone
end StillGen
